import Mathlib

/-!
Verification of the rusty_spine wrapper sources.

The numeric type `c_float` of the Rust sources is embedded as `ℚ`:
none of the verified properties depend on rounding, and rationals keep
every definition executable.  Mutating methods (`&mut self`) are embedded
as functions from the receiver to the updated receiver.
-/

namespace RustySpine

/-- RGBA color, embedding `Color` of src/color.rs (four `c_float` fields). -/
structure Color where
  r : ℚ
  g : ℚ
  b : ℚ
  a : ℚ
deriving DecidableEq

/-- Rust `f32::clamp(0., 1.)` on the rational embedding. -/
def clampQ (x : ℚ) : ℚ := max 0 (min 1 x)

/-- Embedding of `Color::clamp` (src/color.rs lines 98-104).  The source
assigns `self.r.clamp(0., 1.)` to all four fields in sequence: after the
first line `self.r` already holds the clamped value, and the remaining
three lines read `self.r` again. -/
def Color.clamp (c : Color) : Color :=
  let r := clampQ c.r
  let g := clampQ r
  let b := clampQ r
  let a := clampQ r
  ⟨r, g, b, a⟩

/-- Embedding of `Color::set_from_floats` (src/color.rs lines 40-47). -/
def Color.set_from_floats (_c : Color) (r g b a : ℚ) : Color :=
  Color.clamp ⟨r, g, b, a⟩

/-- Embedding of `Color::set_from_floats3` (src/color.rs lines 49-55):
sets r, g, b and then calls `clamp`. -/
def Color.set_from_floats3 (c : Color) (r g b : ℚ) : Color :=
  Color.clamp ⟨r, g, b, c.a⟩

/-- Embedding of `Color::set_from_color` (src/color.rs lines 57-63). -/
def Color.set_from_color (_c : Color) (other : Color) : Color :=
  ⟨other.r, other.g, other.b, other.a⟩

/-- Embedding of `Color::set_from_color3` (src/color.rs lines 65-70):
copies r, g, b from `other`, keeps a, and does not call `clamp`. -/
def Color.set_from_color3 (c : Color) (other : Color) : Color :=
  ⟨other.r, other.g, other.b, c.a⟩

/-- Embedding of `Color::add_floats` (src/color.rs lines 72-79). -/
def Color.add_floats (c : Color) (r g b a : ℚ) : Color :=
  Color.clamp ⟨c.r + r, c.g + g, c.b + b, c.a + a⟩

/-- Embedding of `Color::add_floats3` (src/color.rs lines 81-87):
adds to r, g, b and then calls `clamp`. -/
def Color.add_floats3 (c : Color) (r g b : ℚ) : Color :=
  Color.clamp ⟨c.r + r, c.g + g, c.b + b, c.a⟩

/-- Embedding of `Color::add_color` (src/color.rs lines 89-96). -/
def Color.add_color (c : Color) (other : Color) : Color :=
  Color.clamp ⟨c.r + other.r, c.g + other.g, c.b + other.b, c.a + other.a⟩

/-- Embedding of `Color::premultiply_alpha` (src/color.rs lines 106-110). -/
def Color.premultiply_alpha (c : Color) : Color :=
  ⟨c.r * c.a, c.g * c.a, c.b * c.a, c.a⟩

/-- Atlas page handle as seen by the texture callbacks.  The renderer
object field models the engine-specific handle that the documented usage
of `set_create_texture_cb` stores on the page. -/
structure AtlasPage where
  rendererObject : Option String

/-- Callback registry, embedding `Extension` of src/extension.rs
(lines 30-35).  Callbacks taking `&mut` receivers are embedded as
functions returning the updated receiver; `Vec<u8>` is a list of bytes. -/
structure Extension where
  create_texture_cb : Option (AtlasPage → String → AtlasPage)
  dispose_texture_cb : Option (AtlasPage → AtlasPage)
  read_file_cb : Option (String → Option (List ℕ))

/-- `Extension::default()`: all three callbacks unset. -/
def Extension.default : Extension := ⟨none, none, none⟩

/-- Every access in src/extension.rs goes through `Extension::singleton()`,
a single process-wide `static` registry.  The hooks observed from the
context of any engine instance are therefore that one registry, whatever
the instance is. -/
def hooksObservedBy (_instanceId : ℕ) (globalExt : Extension) : Extension :=
  globalExt

/-- Embedding of `set_create_texture_cb` (src/extension.rs lines 68-75):
stores the callback in the singleton registry. -/
def set_create_texture_cb (cb : AtlasPage → String → AtlasPage)
    (ext : Extension) : Extension :=
  { ext with create_texture_cb := some cb }

/-- Embedding of `set_dispose_texture_cb` (src/extension.rs lines 80-87). -/
def set_dispose_texture_cb (cb : AtlasPage → AtlasPage)
    (ext : Extension) : Extension :=
  { ext with dispose_texture_cb := some cb }

/-- Embedding of `set_read_file_cb` (src/extension.rs lines 103-110). -/
def set_read_file_cb (cb : String → Option (List ℕ))
    (ext : Extension) : Extension :=
  { ext with read_file_cb := some cb }

/-- Embedding of `_spAtlasPage_createTexture` (src/extension.rs
lines 112-124): invokes the registered callback on the page and path,
or does nothing when none is registered. -/
def spAtlasPage_createTexture (ext : Extension) (page : AtlasPage)
    (path : String) : AtlasPage :=
  match ext.create_texture_cb with
  | some cb => cb page path
  | none => page

/-- Embedding of `_spAtlasPage_disposeTexture` (src/extension.rs
lines 126-135). -/
def spAtlasPage_disposeTexture (ext : Extension) (page : AtlasPage) :
    AtlasPage :=
  match ext.dispose_texture_cb with
  | some cb => cb page
  | none => page

/-- The Rust cast `usize as c_int` (`c_int` is `i32`): keep the low
32 bits, read as two's complement. -/
def toCInt (n : ℕ) : ℤ :=
  if n % 2 ^ 32 < 2 ^ 31 then (n % 2 ^ 32 : ℤ) else (n % 2 ^ 32 : ℤ) - 2 ^ 32

/-- Observable outcome of `_spUtil_readFile`: the returned buffer
(`none` models the null pointer), the value stored through the `c_length`
out-parameter if any, and whether `std::fs::read` was consulted. -/
structure ReadFileResult where
  buffer : Option (List ℕ)
  lengthWritten : Option ℤ
  fsRead : Bool

/-- Embedding of `_spUtil_readFile` (src/extension.rs lines 142-170).
`fs` stands for `std::fs::read`, consulted only when no callback is
registered; `*c_length = data.len() as c_int` is the wrapping cast. -/
def spUtil_readFile (ext : Extension) (fs : String → Option (List ℕ))
    (path : String) : ReadFileResult :=
  match ext.read_file_cb with
  | some cb =>
    match cb path with
    | some data => ⟨some data, some (toCInt data.length), false⟩
    | none => ⟨none, none, false⟩
  | none =>
    match fs path with
    | some data => ⟨some data, some (toCInt data.length), true⟩
    | none => ⟨none, none, true⟩

/-- Bone template data: the name and the bone's index in the skeleton's
bone array (the `index` field of `spBoneData` read by `find_bone`). -/
structure BoneData where
  name : String
  index : ℕ
deriving DecidableEq

/-- A bone instance carrying its template data. -/
structure Bone where
  data : BoneData
deriving DecidableEq

/-- A skeleton instance: its own bone array.  `Skeleton::new`
(src/skeleton.rs lines 19-33) builds `bones` as a mirror of the C
skeleton's bone array, so one list stands for both. -/
structure Skeleton where
  bones : List Bone
deriving DecidableEq

/-- `CString::new(name)` fails exactly when the string contains a NUL
byte (in UTF-8 the byte 0 occurs only as the character U+0000). -/
def hasNulByte (name : String) : Bool :=
  name.toList.contains (Char.ofNat 0)

/-- Modelled from the spec: `spSkeleton_findBone` of the wrapped C
runtime is not under src/; per the data model it searches the skeleton's
own bone array for a bone of the given name. -/
def spSkeleton_findBone (sk : Skeleton) (name : String) : Option Bone :=
  sk.bones.find? (fun b => b.data.name == name)

/-- Embedding of `Skeleton::find_bone` (src/skeleton.rs lines 49-60):
`CString::new` failure yields `None`; otherwise the C lookup runs and a
found bone is re-fetched from the Rust-side array at the index recorded
in its data. -/
def Skeleton.find_bone (sk : Skeleton) (name : String) : Option Bone :=
  if hasNulByte name then none
  else
    match spSkeleton_findBone sk name with
    | some bone => sk.bones.get? bone.data.index
    | none => none

/-- One output vertex: position, uv, color (the per-frame output tuple
of the spec's mesh generator). -/
structure Vertex where
  pos : ℚ × ℚ
  uv : ℚ × ℚ
  color : Color
deriving DecidableEq

/-- One emitted triangle. -/
structure Triangle where
  v0 : Vertex
  v1 : Vertex
  v2 : Vertex
deriving DecidableEq

/-- Blend modes of the authoring format. -/
inductive BlendMode
  | normal
  | additive
  | multiply
  | screen
deriving DecidableEq

/-- Embedding of `CullDirection` (src/draw/mod.rs lines 7-11). -/
inductive CullDirection
  | clockwise
  | counterClockwise
deriving DecidableEq

/-- Batch compatibility key: texture page, blend mode and cull
direction; the spec's combined mode flushes when any of these change. -/
structure BatchKey where
  texture : ℕ
  blend : BlendMode
  cull : CullDirection
deriving DecidableEq

/-- A slot's resolved world-space geometry entering the emission stage:
its batch key and its (possibly empty, e.g. fully clipped) triangles. -/
structure SlotGeometry where
  key : BatchKey
  tris : List Triangle

/-- One emitted draw batch. -/
structure Batch where
  key : BatchKey
  tris : List Triangle

/-- Modelled from the spec: the simple emission mode of src/draw
(src/draw/simple.rs is not under src/, only its module declaration is):
one draw call per non-empty attachment, in slot order. -/
def simpleDraw (slots : List SlotGeometry) : List Batch :=
  (slots.filter (fun s => !s.tris.isEmpty)).map (fun s => ⟨s.key, s.tris⟩)

/-- Modelled from the spec: the combined emission mode of src/draw
(src/draw/combined.rs is not under src/): consecutive non-empty slots
sharing texture, blend mode and cull direction are merged into one
growing batch, and a new batch starts whenever the key changes. -/
def combinedDraw : List SlotGeometry → List Batch
  | [] => []
  | s :: rest =>
    if s.tris.isEmpty then combinedDraw rest
    else
      match combinedDraw rest with
      | [] => [⟨s.key, s.tris⟩]
      | b :: bs =>
        if s.key = b.key then ⟨s.key, s.tris ++ b.tris⟩ :: bs
        else ⟨s.key, s.tris⟩ :: b :: bs

/-- All triangles of a batch list, in emission order. -/
def emittedTriangles (batches : List Batch) : List Triangle :=
  batches.foldr (fun b acc => b.tris ++ acc) []

/-- Cosine of an angle given in degrees, as the world transform
propagator converts degrees to radians only at the evaluation point. -/
noncomputable def cosDeg (d : ℝ) : ℝ := Real.cos (d * Real.pi / 180)

/-- Sine of an angle given in degrees. -/
noncomputable def sinDeg (d : ℝ) : ℝ := Real.sin (d * Real.pi / 180)

/-- A bone's current local transform together with its parent reference,
stored as an index into the same skeleton's bone array (`none` for a
root bone). -/
structure BoneLocal where
  parent : Option ℕ
  x : ℝ
  y : ℝ
  rotation : ℝ
  scaleX : ℝ
  scaleY : ℝ
  shearX : ℝ
  shearY : ℝ

/-- A bone's cached world transform: 2x2 linear matrix
`[a b; c d]` plus translation `(worldX, worldY)`; a local point
`(px, py)` maps to `(a*px + b*py + worldX, c*px + d*py + worldY)`. -/
structure WorldTransform where
  a : ℝ
  b : ℝ
  c : ℝ
  d : ℝ
  worldX : ℝ
  worldY : ℝ

/-- Root bones have no parent and inherit identity. -/
def identityTransform : WorldTransform := ⟨1, 0, 0, 1, 0, 0⟩

/-- Modelled from the spec: one step of the world transform propagator
(`spSkeleton_updateWorldTransform` of the wrapped runtime is not under
src/; src/skeleton.rs lines 35-39 only forward to it).  The local
rotation, scale and shear compose into a 2x2 linear matrix which is
folded into the parent's world matrix (full inheritance), and the local
translation is mapped through the parent's world transform. -/
noncomputable def composeTransform (p : WorldTransform) (bone : BoneLocal) :
    WorldTransform :=
  let la := cosDeg (bone.rotation + bone.shearX) * bone.scaleX
  let lb := cosDeg (bone.rotation + 90 + bone.shearY) * bone.scaleY
  let lc := sinDeg (bone.rotation + bone.shearX) * bone.scaleX
  let ld := sinDeg (bone.rotation + 90 + bone.shearY) * bone.scaleY
  ⟨p.a * la + p.b * lc, p.a * lb + p.b * ld,
   p.c * la + p.d * lc, p.c * lb + p.d * ld,
   p.a * bone.x + p.b * bone.y + p.worldX,
   p.c * bone.x + p.d * bone.y + p.worldY⟩

/-- Modelled from the spec: `updateWorldTransform` recomputes every
bone's world transform from its local transform and its parent's
already-updated world transform, visiting the bone list in an order in
which every parent precedes its children. -/
noncomputable def updateWorldTransform (bones : List BoneLocal) :
    List WorldTransform :=
  bones.foldl (fun acc bone =>
    let pw := match bone.parent with
      | none => identityTransform
      | some i => acc.getD i identityTransform
    acc ++ [composeTransform pw bone]) []

/-- The root bone of the spec's two-bone example scenario, with the
given rotation in degrees. -/
def rootBone (θ : ℝ) : BoneLocal := ⟨none, 0, 0, θ, 1, 1, 0, 0⟩

/-- The child bone of the spec's two-bone example scenario: local
offset (0, 100), no rotation. -/
def childBone : BoneLocal := ⟨some 0, 0, 100, 0, 1, 1, 0, 0⟩

/-- World transform of the child bone after `updateWorldTransform` on
the two-bone skeleton with root rotation `θ`. -/
noncomputable def childWorld (θ : ℝ) : WorldTransform :=
  (updateWorldTransform [rootBone θ, childBone]).getD 1 identityTransform

/-- The animation data bound to an animation state: the set of animation
names it can play. -/
structure AnimationStateData where
  animations : List String
deriving DecidableEq

/-- A track entry: the animation it plays and its loop flag. -/
structure TrackEntry where
  animation : String
  loop : Bool
deriving DecidableEq

/-- Playback state machine: the bound data and one optional current
entry per track. -/
structure AnimationState where
  data : AnimationStateData
  tracks : List (Option TrackEntry)
deriving DecidableEq

/-- Replace the entry on track `i`, growing the track list as needed. -/
def setTrack (tracks : List (Option TrackEntry)) (i : ℕ) (e : TrackEntry) :
    List (Option TrackEntry) :=
  (tracks ++ List.replicate (i + 1 - tracks.length) none).set i (some e)

/-- Modelled from the spec: `setAnimation(trackIndex, name, loop)` of the
runtime control surface (the animation state code of the wrapped runtime
is not under src/).  An unknown animation name is reported as a failure
result on that call and leaves the prior track and skeleton state
unchanged; a known name replaces the current entry on the track and the
skeleton pose is untouched until `apply` runs. -/
def setAnimation (s : AnimationState) (sk : Skeleton) (trackIndex : ℕ)
    (name : String) (lp : Bool) :
    Option String × AnimationState × Skeleton :=
  if name ∈ s.data.animations then
    (none, { s with tracks := setTrack s.tracks trackIndex ⟨name, lp⟩ }, sk)
  else
    (some ("Animation not found: " ++ name), s, sk)

/-- Callback used in concrete instances below: stores the path on the
page, as in the documented usage of `set_create_texture_cb`. -/
def cbStoresPath : AtlasPage → String → AtlasPage :=
  fun _page path => ⟨some path⟩

/-- Registry with a create and a dispose callback registered. -/
def extWithTextureCbs : Extension :=
  ⟨some cbStoresPath, some (fun _page => ⟨none⟩), none⟩

/-- Read-file callback answering three bytes for every path. -/
def cbReadThreeBytes : String → Option (List ℕ) :=
  fun _path => some [1, 2, 3]

/-- Read-file callback answering `None` (absent) for every path. -/
def cbReadAbsent : String → Option (List ℕ) :=
  fun _path => none

/-- Registry with only the three-byte read-file callback registered. -/
def extReadThreeBytes : Extension :=
  ⟨none, none, some cbReadThreeBytes⟩

/-- Registry with only the absent-answering read-file callback. -/
def extReadAbsent : Extension :=
  ⟨none, none, some cbReadAbsent⟩

/-- Filesystem containing a single one-byte file, used to observe
whether the default read is consulted. -/
def fsOneByte : String → Option (List ℕ) :=
  fun _path => some [9]

/-- A concrete two-bone skeleton instance. -/
def skeletonTwoBones : Skeleton :=
  ⟨[⟨⟨"root", 0⟩⟩, ⟨⟨"child", 1⟩⟩]⟩

/-- A concrete animation state knowing only the animation "walk". -/
def stateWalk : AnimationState :=
  ⟨⟨["walk"]⟩, [some ⟨"walk", true⟩]⟩

/-! Theorems. -/

/-- Claim C2 (code bug): on the color (0, 2, 0, 1), `Color::clamp`
returns (0, 0, 0, 0), because lines 100-102 of src/color.rs assign the
clamped `r` to g, b and a; componentwise clamping of each field to
[0, 1] would give (0, 1, 0, 1). -/
theorem clamp_failing_input :
    Color.clamp ⟨0, 2, 0, 1⟩ = ⟨0, 0, 0, 0⟩ ∧
    Color.clamp ⟨0, 2, 0, 1⟩ ≠ ⟨clampQ 0, clampQ 2, clampQ 0, clampQ 1⟩ := by
  constructor
  · rfl
  · decide

/-- Claim C3 (code bug): `set_from_floats3` on the color (1, 0, 0, 1/2)
with arguments (1, 0, 0) sets a to 1 — the `clamp` it calls overwrites a
with the clamped r — so the alpha component does not stay unchanged,
while `set_from_color3`, which does not call `clamp`, does keep it. -/
theorem set_from_floats3_failing_input :
    (Color.set_from_floats3 ⟨1, 0, 0, 1 / 2⟩ 1 0 0).a = 1 ∧
    (1 : ℚ) ≠ 1 / 2 ∧
    (∀ c other : Color, (c.set_from_color3 other).a = c.a) := by
  refine ⟨by decide, by norm_num, fun c other => rfl⟩

/-- Claim C9: `premultiply_alpha` multiplies each of the r, g, b
components by the current alpha component and leaves the alpha component
itself unchanged. -/
theorem premultiply_alpha_spec (c : Color) :
    (c.premultiply_alpha).r = c.r * c.a ∧
    (c.premultiply_alpha).g = c.g * c.a ∧
    (c.premultiply_alpha).b = c.b * c.a ∧
    (c.premultiply_alpha).a = c.a :=
  ⟨rfl, rfl, rfl, rfl⟩

/-- Claim C7: `_spAtlasPage_createTexture` invokes the registered
callback with the page and its path, `_spAtlasPage_disposeTexture`
invokes the registered dispose callback with the page, and with no
callback registered both return the page unchanged (a no-op, not an
error). -/
theorem atlasPage_texture_callbacks (ext : Extension) (page : AtlasPage)
    (path : String) :
    (∀ cb, ext.create_texture_cb = some cb →
      spAtlasPage_createTexture ext page path = cb page path) ∧
    (ext.create_texture_cb = none →
      spAtlasPage_createTexture ext page path = page) ∧
    (∀ cb, ext.dispose_texture_cb = some cb →
      spAtlasPage_disposeTexture ext page = cb page) ∧
    (ext.dispose_texture_cb = none →
      spAtlasPage_disposeTexture ext page = page) := by
  refine ⟨fun cb h => ?_, fun h => ?_, fun cb h => ?_, fun h => ?_⟩ <;>
    simp [spAtlasPage_createTexture, spAtlasPage_disposeTexture, h]

/-- Witness for the texture-callback theorem at concrete inputs. -/
theorem atlasPage_texture_callbacks_witness :
    spAtlasPage_createTexture extWithTextureCbs ⟨none⟩ "page.png" =
      ⟨some "page.png"⟩ ∧
    spAtlasPage_disposeTexture extWithTextureCbs ⟨some "page.png"⟩ = ⟨none⟩ ∧
    spAtlasPage_createTexture Extension.default ⟨none⟩ "page.png" = ⟨none⟩ ∧
    spAtlasPage_disposeTexture Extension.default ⟨some "t"⟩ = ⟨some "t"⟩ := by
  have h1 := atlasPage_texture_callbacks extWithTextureCbs ⟨none⟩ "page.png"
  have h2 := atlasPage_texture_callbacks Extension.default ⟨none⟩ "page.png"
  have h3 := atlasPage_texture_callbacks extWithTextureCbs ⟨some "page.png"⟩ "x"
  have h4 := atlasPage_texture_callbacks Extension.default ⟨some "t"⟩ "x"
  exact ⟨h1.1 cbStoresPath rfl, h3.2.2.1 _ rfl, h2.2.1 rfl, h4.2.2.2 rfl⟩

/-- Claim C6 counterexample: the hooks are stored in the process-wide
`Extension::singleton()` registry, so registering a create-texture
callback (from the context of any engine instance) changes the hooks
observed by another instance, here instance 1. -/
theorem hooks_not_per_instance :
    hooksObservedBy 1 (set_create_texture_cb cbStoresPath Extension.default) ≠
      hooksObservedBy 1 Extension.default := by
  intro h
  have h2 := congrArg (fun e => e.create_texture_cb.isSome) h
  simp [hooksObservedBy, set_create_texture_cb, Extension.default] at h2

/-- Claim C6 amended: the three hooks live in one process-wide singleton
registry shared by every engine instance, so all instances observe
identical hooks and a registration is observed by every instance. -/
theorem hooks_shared_singleton (i j : ℕ) (ext : Extension)
    (cbC : AtlasPage → String → AtlasPage) (cbD : AtlasPage → AtlasPage)
    (cbR : String → Option (List ℕ)) :
    hooksObservedBy i ext = hooksObservedBy j ext ∧
    (hooksObservedBy j (set_create_texture_cb cbC ext)).create_texture_cb =
      some cbC ∧
    (hooksObservedBy j (set_dispose_texture_cb cbD ext)).dispose_texture_cb =
      some cbD ∧
    (hooksObservedBy j (set_read_file_cb cbR ext)).read_file_cb = some cbR :=
  ⟨rfl, rfl, rfl, rfl⟩

/-- Claim C1 counterexample: a registered callback returning 2^31 bytes.
`_spUtil_readFile` stores `data.len() as c_int` through the length
out-parameter, a wrapping cast to a 32-bit signed integer, so the value
written is -2^31 and not the byte count 2^31. -/
theorem readFile_length_wraps :
    (spUtil_readFile ⟨none, none, some (fun _ => some (List.replicate (2 ^ 31) 0))⟩
        cbReadAbsent "big.bin").lengthWritten = some (-(2 ^ 31)) ∧
    some (-(2 ^ 31) : ℤ) ≠
      some ((List.replicate (2 ^ 31) (0 : ℕ)).length : ℤ) := by
  constructor
  · simp only [spUtil_readFile, toCInt, List.length_replicate]
    norm_num
  · simp only [List.length_replicate, ne_eq, Option.some.injEq]
    norm_num

/-- Claim C1 amended: with a read-file callback registered, a callback
answer of `bytes` makes `_spUtil_readFile` return a buffer holding
exactly those bytes and write their count cast to a 32-bit signed
integer (equal to the exact count whenever it is below 2^31) to the
length out-parameter; an answer of `None` makes it return null; and in
both cases the default filesystem read is never consulted. -/
theorem readFile_hook_spec (ext : Extension)
    (cb : String → Option (List ℕ)) (fs : String → Option (List ℕ))
    (path : String) (hcb : ext.read_file_cb = some cb) :
    (∀ data, cb path = some data →
      spUtil_readFile ext fs path =
        ⟨some data, some (toCInt data.length), false⟩ ∧
      (data.length < 2 ^ 31 → toCInt data.length = data.length)) ∧
    (cb path = none → spUtil_readFile ext fs path = ⟨none, none, false⟩) := by
  constructor
  · intro data hdata
    constructor
    · simp [spUtil_readFile, hcb, hdata]
    · intro hlen
      simp only [toCInt]
      split <;> omega
  · intro hnone
    simp [spUtil_readFile, hcb, hnone]

/-- Witness for the read-file hook theorem: a callback answering three
bytes fully overrides the filesystem (which holds a one-byte file), and
an absent-answering callback yields null without touching the
filesystem. -/
theorem readFile_hook_spec_witness :
    spUtil_readFile extReadThreeBytes fsOneByte "skel.json" =
      ⟨some [1, 2, 3], some 3, false⟩ ∧
    spUtil_readFile extReadAbsent fsOneByte "skel.json" =
      ⟨none, none, false⟩ := by
  have h1 := (readFile_hook_spec extReadThreeBytes cbReadThreeBytes fsOneByte
    "skel.json" rfl).1 [1, 2, 3] rfl
  have h2 := (readFile_hook_spec extReadAbsent cbReadAbsent fsOneByte
    "skel.json" rfl).2 rfl
  refine ⟨?_, h2⟩
  rw [h1.1]
  have h3 : toCInt ([1, 2, 3] : List ℕ).length = ([1, 2, 3] : List ℕ).length :=
    h1.2 (by norm_num)
  simp only [h3]
  rfl

/-- Claim C10: `find_bone` returns `none` when the name contains a NUL
byte or when no bone of that name exists, and otherwise returns the bone
stored, within the skeleton's own bone array, at the index recorded in
the found bone's data. -/
theorem find_bone_spec (sk : Skeleton) (name : String) :
    (hasNulByte name = true → sk.find_bone name = none) ∧
    ((∀ b ∈ sk.bones, b.data.name ≠ name) → sk.find_bone name = none) ∧
    (∀ bone, hasNulByte name = false →
      spSkeleton_findBone sk name = some bone →
      ∀ h : bone.data.index < sk.bones.length,
        sk.find_bone name = some (sk.bones.get ⟨bone.data.index, h⟩)) := by
  refine ⟨fun hnul => ?_, fun hmiss => ?_, fun bone hnul hfind h => ?_⟩
  · simp [Skeleton.find_bone, hnul]
  · have hf : spSkeleton_findBone sk name = none := by
      simp only [spSkeleton_findBone, List.find?_eq_none]
      intro b hb
      simpa using hmiss b hb
    unfold Skeleton.find_bone
    split
    · rfl
    · rw [hf]
  · simp [Skeleton.find_bone, hnul, hfind, List.get?_eq_get h]

/-- Witness for the bone lookup theorem on a concrete two-bone skeleton:
a NUL-bearing name and an unknown name give `none`, a known name gives
the bone at its recorded index. -/
theorem find_bone_spec_witness :
    Skeleton.find_bone skeletonTwoBones (String.mk [Char.ofNat 0]) = none ∧
    Skeleton.find_bone skeletonTwoBones "nope" = none ∧
    Skeleton.find_bone skeletonTwoBones "child" = some ⟨⟨"child", 1⟩⟩ := by
  refine ⟨(find_bone_spec skeletonTwoBones _).1 (by decide),
    (find_bone_spec skeletonTwoBones _).2.1 (by decide), ?_⟩
  have h := (find_bone_spec skeletonTwoBones "child").2.2 ⟨⟨"child", 1⟩⟩
    (by decide) (by decide) (by decide)
  simpa using h

/-- Claim C8: passing an unknown animation name to `setAnimation`
reports a failure result on that call and leaves the prior track state
and the skeleton unchanged, so the skeleton keeps its previous valid
pose. -/
theorem setAnimation_unknown_name (s : AnimationState) (sk : Skeleton)
    (trackIndex : ℕ) (name : String) (lp : Bool)
    (h : name ∉ s.data.animations) :
    (setAnimation s sk trackIndex name lp).1.isSome = true ∧
    (setAnimation s sk trackIndex name lp).2.1 = s ∧
    (setAnimation s sk trackIndex name lp).2.2 = sk := by
  simp [setAnimation, h]

/-- Witness for the unknown-animation theorem: the state bound to the
single animation "walk" rejects "fly" and is returned unchanged. -/
theorem setAnimation_unknown_name_witness :
    (setAnimation stateWalk skeletonTwoBones 0 "fly" true).1.isSome = true ∧
    (setAnimation stateWalk skeletonTwoBones 0 "fly" true).2.1 = stateWalk ∧
    (setAnimation stateWalk skeletonTwoBones 0 "fly" true).2.2 =
      skeletonTwoBones :=
  setAnimation_unknown_name stateWalk skeletonTwoBones 0 "fly" true (by decide)

theorem emittedTriangles_cons (b : Batch) (bs : List Batch) :
    emittedTriangles (b :: bs) = b.tris ++ emittedTriangles bs := rfl

/-- Claim C4: for every posed-skeleton slot geometry, the combined draw
mode and the simple draw mode emit the same triangles (position, uv and
color data) in the same order, differing only in how they are grouped
into batches. -/
theorem draw_modes_emit_same_triangles (slots : List SlotGeometry) :
    emittedTriangles (combinedDraw slots) =
      emittedTriangles (simpleDraw slots) := by
  induction slots with
  | nil => rfl
  | cons s rest ih =>
    by_cases hs : s.tris.isEmpty = true
    · have h1 : combinedDraw (s :: rest) = combinedDraw rest := by
        simp [combinedDraw, hs]
      have h2 : simpleDraw (s :: rest) = simpleDraw rest := by
        simp [simpleDraw, List.filter_cons, hs]
      rw [h1, h2]
      exact ih
    · have h2 : simpleDraw (s :: rest) = ⟨s.key, s.tris⟩ :: simpleDraw rest := by
        simp [simpleDraw, List.filter_cons, hs]
      cases hcd : combinedDraw rest with
      | nil =>
        have h1 : combinedDraw (s :: rest) = [⟨s.key, s.tris⟩] := by
          simp [combinedDraw, hs, hcd]
        have h3 : emittedTriangles (simpleDraw rest) = [] := by
          rw [← ih, hcd]
          rfl
        simp only [h1, h2, emittedTriangles_cons, h3]
        rfl
      | cons b bs =>
        by_cases hk : s.key = b.key
        · have h1 : combinedDraw (s :: rest) = ⟨s.key, s.tris ++ b.tris⟩ :: bs := by
            simp [combinedDraw, hs, hcd, hk]
          simp only [h1, h2, emittedTriangles_cons]
          rw [← ih, hcd, emittedTriangles_cons, List.append_assoc]
        · have h1 : combinedDraw (s :: rest) = ⟨s.key, s.tris⟩ :: b :: bs := by
            simp [combinedDraw, hs, hcd, hk]
          simp only [h1, h2, emittedTriangles_cons]
          rw [← ih, hcd, emittedTriangles_cons]

theorem cosDeg_zero : cosDeg 0 = 1 := by
  simp only [cosDeg]
  rw [show (0 : ℝ) * Real.pi / 180 = 0 by ring, Real.cos_zero]

theorem sinDeg_zero : sinDeg 0 = 0 := by
  simp only [sinDeg]
  rw [show (0 : ℝ) * Real.pi / 180 = 0 by ring, Real.sin_zero]

theorem cosDeg_ninety : cosDeg 90 = 0 := by
  simp only [cosDeg]
  rw [show (90 : ℝ) * Real.pi / 180 = Real.pi / 2 by ring, Real.cos_pi_div_two]

theorem sinDeg_ninety : sinDeg 90 = 1 := by
  simp only [sinDeg]
  rw [show (90 : ℝ) * Real.pi / 180 = Real.pi / 2 by ring, Real.sin_pi_div_two]

theorem cosDeg_oneEighty : cosDeg 180 = -1 := by
  simp only [cosDeg]
  rw [show (180 : ℝ) * Real.pi / 180 = Real.pi by ring, Real.cos_pi]

theorem sinDeg_oneEighty : sinDeg 180 = 0 := by
  simp only [sinDeg]
  rw [show (180 : ℝ) * Real.pi / 180 = Real.pi by ring, Real.sin_pi]

theorem childWorld_eq (θ : ℝ) :
    childWorld θ =
      composeTransform (composeTransform identityTransform (rootBone θ))
        childBone := by
  simp [childWorld, updateWorldTransform, List.foldl, rootBone, childBone]

/-- Claim C5: in the two-bone example skeleton (child at local offset
(0, 100), no bone rotated) the child's world position after
`updateWorldTransform` is (0, 100); with the root rotated 90 degrees it
is exactly (-100, 0), hence within any floating-point tolerance. -/
theorem two_bone_child_world_position :
    (childWorld 0).worldX = 0 ∧ (childWorld 0).worldY = 100 ∧
    (childWorld 90).worldX = -100 ∧ (childWorld 90).worldY = 0 := by
  refine ⟨?_, ?_, ?_, ?_⟩ <;>
    norm_num [childWorld_eq, composeTransform, identityTransform, rootBone,
      childBone, cosDeg_zero, sinDeg_zero, cosDeg_ninety, sinDeg_ninety,
      cosDeg_oneEighty, sinDeg_oneEighty]

end RustySpine

